/-
Verification of the ticket-metrics pipeline of `support_analyzer.py`
(class `SupportAnalyzer`): data model, sample-data generator, metric
computation, SQL weekly report and JSON export, shallowly embedded in
Lean 4 with Mathlib.

Conventions of the embedding:
* SQLite `DATE` columns hold `'%Y-%m-%d'` text; we model the stored value
  as a `Date` record (year, month, day), rendered to text only where the
  code renders it.
* Python floats are modelled as `ℚ`; `round(x, 2)` is modelled as
  round-half-to-even at two decimals (Python float rounding convention).
* `None` / SQL `NULL` is `Option`.
-/
import Mathlib

/-! ## Calendar arithmetic

`fecha_creacion`/`fecha_resolucion` are Gregorian dates.  Conversions
between a date and its serial day number (days since 1970-01-01) use the
standard closed-form civil-calendar algorithm; Lean's `Int` division is
Euclidean (floor, for positive divisors), so no truncation shims are
needed. -/

structure Date where
  year : ℤ
  month : ℤ
  day : ℤ
deriving DecidableEq, Repr

/-- Serial day number (days since 1970-01-01) of a civil date. -/
def daysFromCivil (dt : Date) : ℤ :=
  let y : ℤ := if dt.month ≤ 2 then dt.year - 1 else dt.year
  let era : ℤ := y / 400
  let yoe : ℤ := y - era * 400
  let mp : ℤ := if dt.month > 2 then dt.month - 3 else dt.month + 9
  let doy : ℤ := (153 * mp + 2) / 5 + dt.day - 1
  let doe : ℤ := yoe * 365 + yoe / 4 - yoe / 100 + doy
  era * 146097 + doe - 719468

/-- Civil date of a serial day number (inverse of `daysFromCivil`). -/
def civilFromDays (z0 : ℤ) : Date :=
  let z : ℤ := z0 + 719468
  let era : ℤ := z / 146097
  let doe : ℤ := z - era * 146097
  let yoe : ℤ := (doe - doe / 1460 + doe / 36524 - doe / 146096) / 365
  let y : ℤ := yoe + era * 400
  let doy : ℤ := doe - (365 * yoe + yoe / 4 - yoe / 100)
  let mp : ℤ := (5 * doy + 2) / 153
  let d : ℤ := doy - (153 * mp + 2) / 5 + 1
  let m : ℤ := if mp < 10 then mp + 3 else mp - 9
  ⟨if m ≤ 2 then y + 1 else y, m, d⟩

/-- Gregorian leap-year test. -/
def isLeap (y : ℤ) : Bool :=
  y % 4 == 0 && (y % 100 != 0 || y % 400 == 0)

/-- Zero-based day of the year (`tm_yday`). -/
def dayOfYear0 (dt : Date) : ℤ :=
  daysFromCivil dt - daysFromCivil ⟨dt.year, 1, 1⟩

/-- Day of the week, Monday = 0 .. Sunday = 6 (1970-01-01 was a Thursday). -/
def weekdayMon (dt : Date) : ℤ :=
  (daysFromCivil dt + 3) % 7

/-- SQLite / C `strftime` `%W`: week of the year (00-53), where week 01
starts at the first Monday of the year and earlier days are week 00. -/
def strftimeW (dt : Date) : ℤ :=
  (dayOfYear0 dt + 7 - weekdayMon dt) / 7

/-- The week key `strftime('%Y-%W', fecha_creacion)` used by the
`tendencia_semanal` query, as the (year, week-of-year) pair underlying the
rendered string `YYYY-WW` (for four-digit years the string order is the
lexicographic pair order). -/
def sqliteWeekKey (dt : Date) : ℤ × ℤ :=
  (dt.year, strftimeW dt)

/-- Number of ISO-8601 weeks in an ISO year: 53 when 1 January falls on a
Thursday, or on a Wednesday in a leap year; 52 otherwise. -/
def weeksInISOYear (y : ℤ) : ℤ :=
  let jan1wd := weekdayMon ⟨y, 1, 1⟩
  if jan1wd = 3 ∨ (isLeap y ∧ jan1wd = 2) then 53 else 52

/-- Modelled from the spec: the ISO-8601 (ISO-year, ISO-week) pair of a
date, the grouping key the spec's words "(ISO week) counts" describe.
The repository itself has no ISO-week code; the source uses
`strftime %Y-%W`. -/
def isoWeekKey (dt : Date) : ℤ × ℤ :=
  let isoWd := weekdayMon dt + 1
  let w := (dayOfYear0 dt + 1 - isoWd + 10) / 7
  if w < 1 then (dt.year - 1, weeksInISOYear (dt.year - 1))
  else if w > weeksInISOYear dt.year then (dt.year + 1, 1)
  else (dt.year, w)

/-- Zero-pad a natural number to at least `w` digits. -/
def padNum (w : ℕ) (n : ℕ) : String :=
  let s := toString n
  if s.length < w then String.mk (List.replicate (w - s.length) '0') ++ s else s

/-- `strftime('%Y-%m-%d')` rendering of a date. -/
def dateToStr (dt : Date) : String :=
  padNum 4 dt.year.toNat ++ "-" ++ padNum 2 dt.month.toNat ++ "-" ++ padNum 2 dt.day.toNat

/-! ## Ticket rows

One row of the `tickets` table (schema of `create_tables`).  The
autoincrement `id` is left out: no computation the claims mention reads
it. -/

structure Ticket where
  ticket_id : String
  fecha_creacion : Date
  fecha_resolucion : Option Date
  categoria : String
  prioridad : String
  estado : String
  agente_asignado : String
  tiempo_resolucion_horas : Option ℚ
  canal : String
  satisfaccion_cliente : Option ℤ
  descripcion : String
deriving DecidableEq, Repr

/-! ## Rounding

Python's `round(x, 2)` on floats rounds half to even. -/

/-- Round a rational to the nearest integer, ties to even. -/
def roundHalfEven (q : ℚ) : ℤ :=
  let f := ⌊q⌋
  if q - f < 1/2 then f
  else if q - f > 1/2 then f + 1
  else if 2 ∣ f then f else f + 1

/-- `round(x, 2)`: round to two decimal places, ties to even. -/
def round2 (q : ℚ) : ℚ :=
  (roundHalfEven (q * 100) : ℚ) / 100

/-! ## Metric computation (`calculate_metrics`) -/

/-- Stable insertion (descending by count) for `sortByCountDesc`. -/
def insertByCountDesc (p : String × ℕ) : List (String × ℕ) → List (String × ℕ)
  | [] => [p]
  | q :: qs => if p.2 ≤ q.2 then q :: insertByCountDesc p qs else p :: q :: qs

/-- Stable sort, descending by count. -/
def sortByCountDesc (l : List (String × ℕ)) : List (String × ℕ) :=
  l.foldr insertByCountDesc []

/-- `pandas.Series.value_counts().to_dict()`: occurrence counts of each
distinct value, ordered by decreasing count. -/
def value_counts (xs : List String) : List (String × ℕ) :=
  sortByCountDesc (xs.dedup.map (fun v => (v, xs.count v)))

/-- The metrics dictionary built by `calculate_metrics` (`self.metrics`). -/
structure Metrics where
  total_tickets : ℕ
  tickets_resueltos : ℕ
  tickets_abiertos : ℕ
  tasa_resolucion : ℚ
  tiempo_promedio_resolucion_horas : ℚ
  satisfaccion_promedio : ℚ
  sla_24h : ℚ
  tickets_por_categoria : List (String × ℕ)
  tickets_por_prioridad : List (String × ℕ)
  tickets_por_canal : List (String × ℕ)
deriving DecidableEq, Repr

/-- Is the ticket's estado one of the terminal states? (`estado IN
('Resuelto', 'Cerrado')`). -/
def esResuelto (t : Ticket) : Bool :=
  t.estado == "Resuelto" || t.estado == "Cerrado"

/-- `SupportAnalyzer.calculate_metrics`, as a function of the full table
scan `df` (the rows of `tickets`). -/
def calculate_metrics (df : List Ticket) : Metrics :=
  let total_tickets := df.length
  let tickets_resueltos := (df.filter esResuelto).length
  let tickets_abiertos := total_tickets - tickets_resueltos
  let tasa_resolucion : ℚ :=
    if total_tickets > 0 then (tickets_resueltos : ℚ) / (total_tickets : ℚ) * 100 else 0
  let tiempos_resueltos := df.filterMap (fun t => t.tiempo_resolucion_horas)
  let tiempo_promedio : ℚ :=
    if tiempos_resueltos.length > 0 then tiempos_resueltos.sum / (tiempos_resueltos.length : ℚ)
    else 0
  let satisfacciones := df.filterMap (fun t => t.satisfaccion_cliente)
  let satisfaccion_promedio : ℚ :=
    if satisfacciones.length > 0 then (satisfacciones.sum : ℚ) / (satisfacciones.length : ℚ)
    else 0
  let sla_24h : ℚ :=
    if tiempos_resueltos.length > 0 then
      ((tiempos_resueltos.filter (fun h => h ≤ 24)).length : ℚ)
        / (tiempos_resueltos.length : ℚ) * 100
    else 0
  { total_tickets := total_tickets
    tickets_resueltos := tickets_resueltos
    tickets_abiertos := tickets_abiertos
    tasa_resolucion := round2 tasa_resolucion
    tiempo_promedio_resolucion_horas := round2 tiempo_promedio
    satisfaccion_promedio := round2 satisfaccion_promedio
    sla_24h := round2 sla_24h
    tickets_por_categoria := value_counts (df.map (fun t => t.categoria))
    tickets_por_prioridad := value_counts (df.map (fun t => t.prioridad))
    tickets_por_canal := value_counts (df.map (fun t => t.canal)) }

/-! ## Sample data generator (`insert_sample_tickets`)

A datetime is a serial day plus an hour-of-day; `datetime.now()` and the
seeded numpy draws are abstracted as parameters, so theorems about the
generator quantify over every ticket count and every seed. -/

structure DateTime where
  days : ℤ
  hour : ℚ
deriving DecidableEq, Repr

/-- The civil date of a datetime (what `strftime('%Y-%m-%d')` keeps). -/
def DateTime.date (t : DateTime) : Date := civilFromDays t.days

/-- `+ timedelta(days=n)`. -/
def DateTime.addDays (t : DateTime) (n : ℤ) : DateTime := ⟨t.days + n, t.hour⟩

/-- `+ timedelta(hours=q)`, carrying the overflow into the day. -/
def DateTime.addHours (t : DateTime) (q : ℚ) : DateTime :=
  let h := t.hour + q
  ⟨t.days + ⌊h / 24⌋, h - 24 * ⌊h / 24⌋⟩

def categorias : List String := ["Hardware", "Software", "Red", "Acceso", "Email", "Impresora"]

def prioridades : List String := ["Baja", "Media", "Alta", "Crítica"]

def canales : List String := ["Email", "Teléfono", "Chat", "Portal", "Slack"]

def agentes : List String := ["Agente1", "Agente2", "Agente3", "Agente4"]

/-- The pseudorandom draws one loop iteration of `insert_sample_tickets`
consumes, one field per numpy call: `dia` is `np.random.randint(0, 60)`
(taken mod 60), `tiempo_resolucion` is `np.random.exponential(24)`,
`resuelto` is `np.random.random() > 0.2` (true with probability 0.8),
`elige_resuelto` selects within `np.random.choice(['Resuelto', 'Cerrado'],
p=[0.7, 0.3])`, `elige_abierto` within `np.random.choice(['Abierto',
'En Progreso'], p=[0.3, 0.7])`, `satisfaccion` encodes
`np.random.randint(1, 6)` as `1 + satisfaccion % 5`, and the `_ix` fields
select uniformly from the categorical pools (taken mod the pool size). -/
structure TicketDraws where
  dia : ℕ
  tiempo_resolucion : ℚ
  resuelto : Bool
  elige_resuelto : Bool
  elige_abierto : Bool
  satisfaccion : ℕ
  categoria_ix : ℕ
  prioridad_ix : ℕ
  agente_ix : ℕ
  canal_ix : ℕ
deriving DecidableEq, Repr

/-- The body of the generation loop of `insert_sample_tickets` for index
`i` (0-based), producing the row passed to `INSERT OR IGNORE`;
`base_date` is `datetime.now() - timedelta(days=60)`. -/
def generate_ticket (base_date : DateTime) (i : ℕ) (d : TicketDraws) : Ticket :=
  let fecha_creacion := base_date.addDays (d.dia % 60)
  let tiempo_resolucion := d.tiempo_resolucion
  let fecha_resolucion : Option DateTime :=
    if d.resuelto then some (fecha_creacion.addHours tiempo_resolucion) else none
  let estado : String :=
    if d.resuelto then (if d.elige_resuelto then "Resuelto" else "Cerrado")
    else (if d.elige_abierto then "Abierto" else "En Progreso")
  { ticket_id := "TICK-" ++ padNum 4 (i + 1)
    fecha_creacion := fecha_creacion.date
    fecha_resolucion := fecha_resolucion.map DateTime.date
    categoria := categorias.getD (d.categoria_ix % 6) ""
    prioridad := prioridades.getD (d.prioridad_ix % 4) ""
    estado := estado
    agente_asignado := agentes.getD (d.agente_ix % 4) ""
    tiempo_resolucion_horas := if fecha_resolucion.isSome then some tiempo_resolucion else none
    canal := canales.getD (d.canal_ix % 5) ""
    satisfaccion_cliente :=
      if fecha_resolucion.isSome then some ((1 + d.satisfaccion % 5 : ℕ) : ℤ) else none
    descripcion := "Ticket de ejemplo " ++ toString (i + 1) }

/-- `INSERT OR IGNORE INTO tickets`: the row is appended unless a stored
row already carries its `ticket_id` (a `UNIQUE` column), in which case the
statement is a no-op. -/
def insertOrIgnore (store : List Ticket) (t : Ticket) : List Ticket :=
  if store.any (fun r => r.ticket_id == t.ticket_id) then store else store ++ [t]

/-- `SupportAnalyzer.insert_sample_tickets`: one generated row per draw
record (`n_tickets = draws.length`), each inserted with
`INSERT OR IGNORE`. -/
def insert_sample_tickets (store : List Ticket) (base_date : DateTime)
    (draws : List TicketDraws) : List Ticket :=
  draws.enum.foldl (fun s p => insertOrIgnore s (generate_ticket base_date p.1 p.2)) store

/-! ## Schema creation (`create_tables`) -/

structure ColumnDef where
  name : String
  decl : String
deriving DecidableEq, Repr

structure TableSchema where
  columns : List ColumnDef
deriving DecidableEq, Repr

/-- The `tickets` table of `create_tables`. -/
def ticketsSchema : TableSchema :=
  ⟨[⟨"id", "INTEGER PRIMARY KEY AUTOINCREMENT"⟩,
    ⟨"ticket_id", "TEXT UNIQUE"⟩,
    ⟨"fecha_creacion", "DATE"⟩,
    ⟨"fecha_resolucion", "DATE"⟩,
    ⟨"categoria", "TEXT"⟩,
    ⟨"prioridad", "TEXT"⟩,
    ⟨"estado", "TEXT"⟩,
    ⟨"agente_asignado", "TEXT"⟩,
    ⟨"tiempo_resolucion_horas", "REAL"⟩,
    ⟨"canal", "TEXT"⟩,
    ⟨"satisfaccion_cliente", "INTEGER"⟩,
    ⟨"descripcion", "TEXT"⟩]⟩

/-- The `metricas_diarias` rollup table of `create_tables`. -/
def metricasDiariasSchema : TableSchema :=
  ⟨[⟨"id", "INTEGER PRIMARY KEY AUTOINCREMENT"⟩,
    ⟨"fecha", "DATE"⟩,
    ⟨"tickets_abiertos", "INTEGER"⟩,
    ⟨"tickets_resueltos", "INTEGER"⟩,
    ⟨"tiempo_promedio_resolucion", "REAL"⟩,
    ⟨"satisfaccion_promedio", "REAL"⟩,
    ⟨"tickets_por_categoria", "TEXT"⟩]⟩

/-- The two tables of the SQLite database file. -/
structure DatabaseSchema where
  tickets : Option TableSchema
  metricas_diarias : Option TableSchema
deriving DecidableEq, Repr

/-- `CREATE TABLE IF NOT EXISTS`: creates the table only when absent. -/
def createTableIfNotExists (cur : Option TableSchema) (s : TableSchema) : Option TableSchema :=
  match cur with
  | some t => some t
  | none => some s

/-- `SupportAnalyzer.create_tables`. -/
def create_tables (db : DatabaseSchema) : DatabaseSchema :=
  { tickets := createTableIfNotExists db.tickets ticketsSchema
    metricas_diarias := createTableIfNotExists db.metricas_diarias metricasDiariasSchema }

/-! ## Weekly trend (`generate_sql_report`, consulta 3) -/

/-- Lexicographic `≤` on (year, week) keys: the order of the rendered
`'%Y-%W'` strings for four-digit years. -/
def weekKeyLe (a b : ℤ × ℤ) : Bool :=
  a.1 < b.1 || (a.1 == b.1 && a.2 ≤ b.2)

/-- One row of the `tendencia_semanal` result set. -/
structure WeekRow where
  semana : ℤ × ℤ
  tickets_creados : ℕ
  tickets_resueltos : ℕ
deriving DecidableEq, Repr

/-- Row order of `ORDER BY semana DESC`: week key of `a` at least that of
`b`. -/
def weekGe (a b : WeekRow) : Prop := weekKeyLe b.semana a.semana = true

instance : DecidableRel weekGe := fun _ _ => instDecidableEqBool _ _

instance : IsTotal WeekRow weekGe :=
  ⟨by
    intro a b
    simp only [weekGe, weekKeyLe, Bool.or_eq_true, Bool.and_eq_true, decide_eq_true_eq,
      beq_iff_eq]
    omega⟩

instance : IsTrans WeekRow weekGe :=
  ⟨by
    intro a b c
    simp only [weekGe, weekKeyLe, Bool.or_eq_true, Bool.and_eq_true, decide_eq_true_eq,
      beq_iff_eq]
    omega⟩

/-- `ORDER BY semana DESC`. -/
def sortWeekDesc (l : List WeekRow) : List WeekRow := List.insertionSort weekGe l

/-- The `tendencia_semanal` query of `generate_sql_report`, parameterised
by the week key of `fecha_creacion`: `GROUP BY semana` with `COUNT(*)` and
`COUNT(CASE WHEN estado IN ('Resuelto', 'Cerrado') THEN 1 END)`, then
`ORDER BY semana DESC LIMIT 8`. -/
def weeklyTrend (key : Date → ℤ × ℤ) (df : List Ticket) : List WeekRow :=
  let semanas := (df.map (fun t => key t.fecha_creacion)).dedup
  let rows := semanas.map (fun w =>
    { semana := w
      tickets_creados := (df.filter (fun t => key t.fecha_creacion == w)).length
      tickets_resueltos :=
        (df.filter (fun t => key t.fecha_creacion == w && esResuelto t)).length })
  (sortWeekDesc rows).take 8

/-- `tendencia_semanal` as the source computes it: the grouping key is
`strftime('%Y-%W', fecha_creacion)`. -/
def tendencia_semanal (df : List Ticket) : List WeekRow := weeklyTrend sqliteWeekKey df

/-- Modelled from the spec: the weekly report the spec's words describe,
identical except that tickets are grouped by ISO-8601 week. -/
def tendencia_semanal_iso (df : List Ticket) : List WeekRow := weeklyTrend isoWeekKey df

/-! ## JSON export (`export_for_powerbi`)

The JSON document is modelled by its abstract syntax tree; `json.dump`
followed by `json.load` preserves this tree (numbers are exact here: every
serialized value round-trips through the decimal rendering). -/

inductive Json where
  | null : Json
  | str : String → Json
  | num : ℚ → Json
  | arr : List Json → Json
  | obj : List (String × Json) → Json

/-- Value of a top-level key of a JSON object. -/
def Json.getField : Json → String → Option Json
  | .obj fs, k => fs.lookup k
  | _, _ => none

/-- Key list of a JSON object, in document order. -/
def Json.keys : Json → List String
  | .obj fs => fs.map Prod.fst
  | _ => []

/-- A JSON number read back as a rational. -/
def Json.asRat : Json → Option ℚ
  | .num q => some q
  | _ => none

/-- A JSON number read back as a natural number. -/
def Json.asNat : Json → Option ℕ
  | .num q => if q.den = 1 ∧ 0 ≤ q.num then some q.num.toNat else none
  | _ => none

/-- Serialization of a grouped-count mapping (`tickets_por_*`). -/
def countsToJson (l : List (String × ℕ)) : Json :=
  .obj (l.map (fun p => (p.1, .num (p.2 : ℚ))))

/-- Parse a grouped-count mapping back from its JSON object. -/
def decodeCounts : Json → Option (List (String × ℕ))
  | .obj fs =>
    fs.foldr (fun p acc => do
      let l ← acc
      let n ← p.2.asNat
      pure ((p.1, n) :: l)) (some [])
  | _ => none

/-- Serialization of `self.metrics` inside the exported document. -/
def metricsToJson (m : Metrics) : Json :=
  .obj [("total_tickets", .num (m.total_tickets : ℚ)),
        ("tickets_resueltos", .num (m.tickets_resueltos : ℚ)),
        ("tickets_abiertos", .num (m.tickets_abiertos : ℚ)),
        ("tasa_resolucion", .num m.tasa_resolucion),
        ("tiempo_promedio_resolucion_horas", .num m.tiempo_promedio_resolucion_horas),
        ("satisfaccion_promedio", .num m.satisfaccion_promedio),
        ("sla_24h", .num m.sla_24h),
        ("tickets_por_categoria", countsToJson m.tickets_por_categoria),
        ("tickets_por_prioridad", countsToJson m.tickets_por_prioridad),
        ("tickets_por_canal", countsToJson m.tickets_por_canal)]

/-- Parse the `metrics` object of the exported document back into a
snapshot, field by field. -/
def decodeMetrics (j : Json) : Option Metrics :=
  Option.bind ((j.getField "total_tickets").bind Json.asNat) (fun total =>
  Option.bind ((j.getField "tickets_resueltos").bind Json.asNat) (fun res =>
  Option.bind ((j.getField "tickets_abiertos").bind Json.asNat) (fun abi =>
  Option.bind ((j.getField "tasa_resolucion").bind Json.asRat) (fun tasa =>
  Option.bind ((j.getField "tiempo_promedio_resolucion_horas").bind Json.asRat) (fun tiempo =>
  Option.bind ((j.getField "satisfaccion_promedio").bind Json.asRat) (fun satis =>
  Option.bind ((j.getField "sla_24h").bind Json.asRat) (fun sla =>
  Option.bind ((j.getField "tickets_por_categoria").bind decodeCounts) (fun porCat =>
  Option.bind ((j.getField "tickets_por_prioridad").bind decodeCounts) (fun porPri =>
  Option.bind ((j.getField "tickets_por_canal").bind decodeCounts) (fun porCanal =>
  some { total_tickets := total
         tickets_resueltos := res
         tickets_abiertos := abi
         tasa_resolucion := tasa
         tiempo_promedio_resolucion_horas := tiempo
         satisfaccion_promedio := satis
         sla_24h := sla
         tickets_por_categoria := porCat
         tickets_por_prioridad := porPri
         tickets_por_canal := porCanal }))))))))))

/-- `None` serialized as `null`, a present value by `f`. -/
def optionToJson {α : Type} (f : α → Json) : Option α → Json
  | none => Json.null
  | some a => f a

/-- One row of `df.to_dict('records')` in the export. -/
def ticketToJson (t : Ticket) : Json :=
  .obj [("ticket_id", .str t.ticket_id),
        ("fecha_creacion", .str (dateToStr t.fecha_creacion)),
        ("fecha_resolucion", optionToJson (fun d => .str (dateToStr d)) t.fecha_resolucion),
        ("categoria", .str t.categoria),
        ("prioridad", .str t.prioridad),
        ("estado", .str t.estado),
        ("agente_asignado", .str t.agente_asignado),
        ("tiempo_resolucion_horas", optionToJson Json.num t.tiempo_resolucion_horas),
        ("canal", .str t.canal),
        ("satisfaccion_cliente", optionToJson (fun n => .num (n : ℚ)) t.satisfaccion_cliente),
        ("descripcion", .str t.descripcion)]

/-- `pandas.Series.min()` over a text column (lexicographic). -/
def minString (l : List String) : Option String :=
  match l with
  | [] => none
  | s :: rest => some (rest.foldl (fun a b => if b < a then b else a) s)

/-- `pandas.Series.max()` over a text column (lexicographic). -/
def maxString (l : List String) : Option String :=
  match l with
  | [] => none
  | s :: rest => some (rest.foldl (fun a b => if a < b then b else a) s)

/-- `SupportAnalyzer.export_for_powerbi`: the JSON document written to the
output path; `now_iso` is `datetime.now().isoformat()`, `metrics` is
`self.metrics`, `df` is the `SELECT * FROM tickets` scan. -/
def export_for_powerbi (metrics : Metrics) (df : List Ticket) (now_iso : String) : Json :=
  .obj [("timestamp", .str now_iso),
        ("metrics", metricsToJson metrics),
        ("tickets", .arr (df.map ticketToJson)),
        ("summary", .obj
          [("total_tickets", .num (df.length : ℚ)),
           ("date_range", .obj
             [("start",
               optionToJson Json.str (minString (df.map (fun t => dateToStr t.fecha_creacion)))),
              ("end",
               optionToJson Json.str (maxString (df.map (fun t => dateToStr t.fecha_creacion))))])])]

/-! ## Analyzer object state (`calculate_metrics` as a method) -/

/-- The state of a `SupportAnalyzer` object that `calculate_metrics`
touches: the `tickets` table behind `self.conn` and the cached
`self.metrics` (empty before the first call). -/
structure AnalyzerState where
  tickets_table : List Ticket
  metrics : Option Metrics
deriving DecidableEq, Repr

/-- One call of `self.calculate_metrics()`: read the full table, compute
the snapshot, cache it in `self.metrics` and return it. -/
def calculate_metrics_run (st : AnalyzerState) : Metrics × AnalyzerState :=
  let m := calculate_metrics st.tickets_table
  (m, { st with metrics := some m })

/-! ## Concrete instances used by the theorems -/

/-- A ticket row with the fields the metric computation reads; dates and
presentation fields are fixed defaults. -/
def mkTicket (idx : ℕ) (created : Date) (est : String) (hrs : Option ℚ)
    (sat : Option ℤ) : Ticket :=
  { ticket_id := "TICK-" ++ padNum 4 idx
    fecha_creacion := created
    fecha_resolucion := none
    categoria := "Hardware"
    prioridad := "Media"
    estado := est
    agente_asignado := "Agente1"
    tiempo_resolucion_horas := hrs
    canal := "Email"
    satisfaccion_cliente := sat
    descripcion := "Ticket de ejemplo" }

/-- The five-ticket scenario of the spec: four resolved tickets with
resolution hours 10, 20, 30, 50 and satisfactions 5, 4, 3, 2, plus one
open ticket. -/
def scenarioFive : List Ticket :=
  [mkTicket 1 ⟨2024, 1, 1⟩ "Resuelto" (some 10) (some 5),
   mkTicket 2 ⟨2024, 1, 2⟩ "Resuelto" (some 20) (some 4),
   mkTicket 3 ⟨2024, 1, 3⟩ "Cerrado" (some 30) (some 3),
   mkTicket 4 ⟨2024, 1, 4⟩ "Cerrado" (some 50) (some 2),
   mkTicket 5 ⟨2024, 1, 5⟩ "Abierto" none none]

/-- A ticket left in "En Progreso". -/
def ticketEnProgreso : Ticket := mkTicket 9 ⟨2024, 2, 1⟩ "En Progreso" none none

/-- One draw record for the generator. -/
def drawsOne : TicketDraws :=
  { dia := 3, tiempo_resolucion := 5, resuelto := true, elige_resuelto := true
    elige_abierto := false, satisfaccion := 2, categoria_ix := 0, prioridad_ix := 1
    agente_ix := 2, canal_ix := 3 }

/-- A duplicate of `TICK-0001` from `scenarioFive` with different
attributes. -/
def dupTicket : Ticket := mkTicket 1 ⟨2024, 3, 1⟩ "Abierto" none none

/-- Two tickets in the same ISO week (2022-W52) but different
`'%Y-%W'` groups: 2023-01-01 is a Sunday before the first Monday of 2023
(week `2023-00`), 2022-12-26 is a Monday (week `2022-52`). -/
def crossYearTickets : List Ticket :=
  [mkTicket 1 ⟨2023, 1, 1⟩ "Abierto" none none,
   mkTicket 2 ⟨2022, 12, 26⟩ "Abierto" none none]

/-- Nine tickets in nine distinct weeks, so the weekly report keeps only
the eight most recent. -/
def nineWeekTickets : List Ticket :=
  [mkTicket 1 ⟨2015, 1, 15⟩ "Abierto" none none,
   mkTicket 2 ⟨2016, 1, 15⟩ "Abierto" none none,
   mkTicket 3 ⟨2017, 1, 15⟩ "Abierto" none none,
   mkTicket 4 ⟨2018, 1, 15⟩ "Abierto" none none,
   mkTicket 5 ⟨2019, 1, 15⟩ "Abierto" none none,
   mkTicket 6 ⟨2020, 1, 15⟩ "Abierto" none none,
   mkTicket 7 ⟨2021, 1, 15⟩ "Abierto" none none,
   mkTicket 8 ⟨2022, 1, 15⟩ "Abierto" none none,
   mkTicket 9 ⟨2023, 1, 15⟩ "Abierto" none none]

/-- The most recent weekly row of `tendencia_semanal nineWeekTickets`. -/
def topNineWeekRow : WeekRow :=
  { semana := (2023, 2), tickets_creados := 1, tickets_resueltos := 0 }

/-- The joint-presence invariant of generated tickets: `fecha_resolucion`,
`tiempo_resolucion_horas` and `satisfaccion_cliente` are present together,
exactly when the estado is terminal. -/
def ticketInvariant (t : Ticket) : Prop :=
  t.fecha_resolucion.isSome = t.tiempo_resolucion_horas.isSome ∧
  t.fecha_resolucion.isSome = t.satisfaccion_cliente.isSome ∧
  (t.fecha_resolucion.isSome = true ↔ (t.estado = "Resuelto" ∨ t.estado = "Cerrado"))

/-! ## Helper lemmas -/

theorem roundHalfEven_le (q : ℚ) : (roundHalfEven q : ℚ) ≤ q + 1/2 := by
  have h0 : (⌊q⌋ : ℚ) ≤ q := Int.floor_le q
  have h1 : q < ⌊q⌋ + 1 := Int.lt_floor_add_one q
  unfold roundHalfEven
  dsimp only
  split_ifs <;> push_cast <;> linarith

theorem le_roundHalfEven (q : ℚ) : q - 1/2 ≤ (roundHalfEven q : ℚ) := by
  have h0 : (⌊q⌋ : ℚ) ≤ q := Int.floor_le q
  have h1 : q < ⌊q⌋ + 1 := Int.lt_floor_add_one q
  unfold roundHalfEven
  dsimp only
  split_ifs <;> push_cast <;> linarith

theorem round2_nonneg (q : ℚ) (h : 0 ≤ q) : 0 ≤ round2 q := by
  have h2 := le_roundHalfEven (q * 100)
  have h3 : (-1 : ℤ) < roundHalfEven (q * 100) := by
    have hq : (-1 : ℚ) < (roundHalfEven (q * 100) : ℚ) := by nlinarith
    exact_mod_cast hq
  have h4 : (0 : ℚ) ≤ (roundHalfEven (q * 100) : ℚ) := by
    exact_mod_cast (by omega : (0 : ℤ) ≤ roundHalfEven (q * 100))
  unfold round2
  exact div_nonneg h4 (by norm_num)

theorem round2_le_hundred (q : ℚ) (h : q ≤ 100) : round2 q ≤ 100 := by
  have h2 := roundHalfEven_le (q * 100)
  have h4 : roundHalfEven (q * 100) ≤ 10000 := by
    by_contra hc
    push_neg at hc
    have h5 : (10001 : ℚ) ≤ (roundHalfEven (q * 100) : ℚ) := by exact_mod_cast hc
    nlinarith
  have h6 : (roundHalfEven (q * 100) : ℚ) ≤ 10000 := by exact_mod_cast h4
  unfold round2
  rw [div_le_iff₀ (by norm_num : (0 : ℚ) < 100)]
  linarith

theorem ratio_if_bounds (a b : ℕ) (hab : a ≤ b) :
    0 ≤ (if b > 0 then (a : ℚ) / (b : ℚ) * 100 else 0) ∧
    (if b > 0 then (a : ℚ) / (b : ℚ) * 100 else 0) ≤ 100 := by
  split_ifs with hb
  · have hb' : (0 : ℚ) < (b : ℚ) := by exact_mod_cast hb
    have hab' : (a : ℚ) ≤ (b : ℚ) := by exact_mod_cast hab
    refine ⟨by positivity, ?_⟩
    rw [div_mul_eq_mul_div, div_le_iff₀ hb']
    nlinarith
  · norm_num

theorem mem_insertOrIgnore {t x : Ticket} {s : List Ticket}
    (h : t ∈ insertOrIgnore s x) : t ∈ s ∨ t = x := by
  unfold insertOrIgnore at h
  split at h
  · exact Or.inl h
  · rcases List.mem_append.mp h with h1 | h2
    · exact Or.inl h1
    · simp only [List.mem_singleton] at h2
      exact Or.inr h2

theorem mem_foldl_insertOrIgnore (g : ℕ × TicketDraws → Ticket) :
    ∀ (l : List (ℕ × TicketDraws)) (s : List Ticket) (t : Ticket),
      t ∈ l.foldl (fun acc p => insertOrIgnore acc (g p)) s →
      t ∈ s ∨ ∃ p ∈ l, t = g p := by
  intro l
  induction l with
  | nil => exact fun s t h => Or.inl h
  | cons p rest ih =>
    intro s t h
    simp only [List.foldl_cons] at h
    rcases ih _ t h with h1 | h2
    · rcases mem_insertOrIgnore h1 with h3 | h4
      · exact Or.inl h3
      · exact Or.inr ⟨p, List.mem_cons_self _ _, h4⟩
    · obtain ⟨q, hq, he⟩ := h2
      exact Or.inr ⟨q, List.mem_cons_of_mem _ hq, he⟩

theorem generate_ticket_invariant (base : DateTime) (i : ℕ) (d : TicketDraws) :
    ticketInvariant (generate_ticket base i d) := by
  cases hr : d.resuelto <;> cases he : d.elige_resuelto <;> cases ha : d.elige_abierto <;>
    simp [generate_ticket, ticketInvariant, hr, he, ha]

theorem decodeCounts_countsToJson (l : List (String × ℕ)) :
    decodeCounts (countsToJson l) = some l := by
  induction l with
  | nil => rfl
  | cons p rest ih =>
    simp only [countsToJson, decodeCounts, List.map_cons, List.foldr_cons] at ih ⊢
    rw [ih]
    simp [Json.asNat]

theorem decode_metricsToJson (m : Metrics) : decodeMetrics (metricsToJson m) = some m := by
  obtain ⟨t, r, a, ta, ti, sa, sl, pc, pp, pca⟩ := m
  simp [decodeMetrics, metricsToJson, Json.getField, Json.asNat, Json.asRat,
    decodeCounts_countsToJson, List.lookup]

/-! ## Claims -/

section

/- `decide`-based evaluation of concrete snapshots needs the Batteries
rational-arithmetic definitions to unfold. -/
attribute [local semireducible] Rat.add Rat.mul Rat.inv Rat.sub Rat.ofScientific


/-- C1: On the five-ticket scenario (four resolved with resolution hours
10, 20, 30, 50 and satisfactions 5, 4, 3, 2, one open),
`calculate_metrics` returns total = 5, resolved = 4, open = 1,
resolution rate = 80.0, mean resolution hours = 27.5, mean satisfaction
= 3.5 and SLA-24h rate = 50.0. -/
theorem calculate_metrics_five_ticket_scenario :
    (calculate_metrics scenarioFive).total_tickets = 5 ∧
    (calculate_metrics scenarioFive).tickets_resueltos = 4 ∧
    (calculate_metrics scenarioFive).tickets_abiertos = 1 ∧
    (calculate_metrics scenarioFive).tasa_resolucion = 80 ∧
    (calculate_metrics scenarioFive).tiempo_promedio_resolucion_horas = 27.5 ∧
    (calculate_metrics scenarioFive).satisfaccion_promedio = 3.5 ∧
    (calculate_metrics scenarioFive).sla_24h = 50 := by
  decide

/-- C2: `calculate_metrics` of the empty table is the all-zero snapshot
with empty grouped mappings; every division is guarded, so the (total)
function raises nothing. -/
theorem calculate_metrics_empty :
    calculate_metrics [] =
      { total_tickets := 0
        tickets_resueltos := 0
        tickets_abiertos := 0
        tasa_resolucion := 0
        tiempo_promedio_resolucion_horas := 0
        satisfaccion_promedio := 0
        sla_24h := 0
        tickets_por_categoria := []
        tickets_por_prioridad := []
        tickets_por_canal := [] } := by
  decide

/-- C4: For every ticket collection, the resolution rate and the SLA-24h
rate of the snapshot lie in [0, 100]. -/
theorem calculate_metrics_rates_in_range (df : List Ticket) :
    (0 ≤ (calculate_metrics df).tasa_resolucion ∧
      (calculate_metrics df).tasa_resolucion ≤ 100) ∧
    (0 ≤ (calculate_metrics df).sla_24h ∧ (calculate_metrics df).sla_24h ≤ 100) := by
  have e1 : (calculate_metrics df).tasa_resolucion =
      round2 (if df.length > 0 then
        ((df.filter esResuelto).length : ℚ) / (df.length : ℚ) * 100 else 0) := rfl
  have e2 : (calculate_metrics df).sla_24h =
      round2 (if (df.filterMap (fun t => t.tiempo_resolucion_horas)).length > 0 then
        (((df.filterMap (fun t => t.tiempo_resolucion_horas)).filter
            (fun h => h ≤ 24)).length : ℚ)
          / ((df.filterMap (fun t => t.tiempo_resolucion_horas)).length : ℚ) * 100
        else 0) := rfl
  rw [e1, e2]
  obtain ⟨ha1, ha2⟩ :=
    ratio_if_bounds (df.filter esResuelto).length df.length (List.length_filter_le _ _)
  obtain ⟨hb1, hb2⟩ :=
    ratio_if_bounds
      ((df.filterMap (fun t => t.tiempo_resolucion_horas)).filter (fun h => h ≤ 24)).length
      (df.filterMap (fun t => t.tiempo_resolucion_horas)).length
      (List.length_filter_le _ _)
  exact ⟨⟨round2_nonneg _ ha1, round2_le_hundred _ ha2⟩,
    ⟨round2_nonneg _ hb1, round2_le_hundred _ hb2⟩⟩

/-- C5: `INSERT OR IGNORE` of a ticket whose `ticket_id` is already stored
leaves the store unchanged (and, being a total function, raises
nothing). -/
theorem insertOrIgnore_duplicate (store : List Ticket) (t r : Ticket)
    (hr : r ∈ store) (hid : r.ticket_id = t.ticket_id) :
    insertOrIgnore store t = store := by
  unfold insertOrIgnore
  have h : store.any (fun x => x.ticket_id == t.ticket_id) = true :=
    List.any_eq_true.mpr ⟨r, hr, by simp [hid]⟩
  rw [if_pos h]

/-- Witness for C5 at a concrete store and duplicate. -/
theorem insertOrIgnore_duplicate_witness :
    insertOrIgnore scenarioFive dupTicket = scenarioFive :=
  insertOrIgnore_duplicate scenarioFive dupTicket
    (mkTicket 1 ⟨2024, 1, 1⟩ "Resuelto" (some 10) (some 5)) (by decide) (by decide)

/-- C6: `create_tables` (two `CREATE TABLE IF NOT EXISTS` statements) is
idempotent: a second call raises nothing and leaves both the ticket table
and the rollup table exactly as after the first call. -/
theorem create_tables_idempotent (db : DatabaseSchema) :
    create_tables (create_tables db) = create_tables db := by
  obtain ⟨t, m⟩ := db
  cases t <;> cases m <;> rfl

/-- C9: the snapshot `calculate_metrics` returns is a pure function of the
ticket collection: two analyzer states with equal ticket tables produce
equal snapshots, the result is exactly `calculate_metrics` of the table,
and the run leaves the ticket store unmodified (its only write is the
`self.metrics` cache of the returned snapshot). -/
theorem calculate_metrics_run_pure (s1 s2 : AnalyzerState)
    (h : s1.tickets_table = s2.tickets_table) :
    (calculate_metrics_run s1).1 = (calculate_metrics_run s2).1 ∧
    (calculate_metrics_run s1).1 = calculate_metrics s1.tickets_table ∧
    (calculate_metrics_run s1).2.tickets_table = s1.tickets_table ∧
    (calculate_metrics_run s1).2.metrics = some (calculate_metrics s1.tickets_table) := by
  refine ⟨?_, rfl, rfl, rfl⟩
  simp [calculate_metrics_run, h]

/-- Witness for C9: two states with the same table and different caches. -/
theorem calculate_metrics_run_pure_witness :
    (calculate_metrics_run ⟨scenarioFive, none⟩).1 =
      (calculate_metrics_run ⟨scenarioFive, some (calculate_metrics [])⟩).1 ∧
    (calculate_metrics_run ⟨scenarioFive, none⟩).1 = calculate_metrics scenarioFive ∧
    (calculate_metrics_run ⟨scenarioFive, none⟩).2.tickets_table = scenarioFive ∧
    (calculate_metrics_run ⟨scenarioFive, none⟩).2.metrics =
      some (calculate_metrics scenarioFive) :=
  calculate_metrics_run_pure ⟨scenarioFive, none⟩
    ⟨scenarioFive, some (calculate_metrics [])⟩ rfl

/-- C10: the snapshot satisfies total = resolved + open, where resolved
counts exactly the tickets with estado in {Resuelto, Cerrado} and open is
the complement count, so a ticket "En Progreso" counts as open. -/
theorem calculate_metrics_partition (df : List Ticket) :
    (calculate_metrics df).total_tickets =
      (calculate_metrics df).tickets_resueltos + (calculate_metrics df).tickets_abiertos ∧
    (calculate_metrics df).tickets_resueltos = df.countP esResuelto ∧
    (calculate_metrics df).tickets_abiertos = df.countP (fun t => ¬esResuelto t) ∧
    ∀ t : Ticket, t.estado = "En Progreso" → esResuelto t = false := by
  have e1 : (calculate_metrics df).total_tickets = df.length := rfl
  have e2 : (calculate_metrics df).tickets_resueltos = (df.filter esResuelto).length := rfl
  have e3 : (calculate_metrics df).tickets_abiertos =
      df.length - (df.filter esResuelto).length := rfl
  have h4 := List.length_eq_countP_add_countP (p := esResuelto) df
  have h5 : df.countP esResuelto = (df.filter esResuelto).length :=
    List.countP_eq_length_filter _ _
  refine ⟨by omega, by omega, by omega, ?_⟩
  intro t ht
  simp [esResuelto, ht]

/-- Witness for C10: the partition on the five-ticket scenario, and an
"En Progreso" ticket counted as not resolved. -/
theorem calculate_metrics_partition_witness :
    (calculate_metrics scenarioFive).total_tickets =
      (calculate_metrics scenarioFive).tickets_resueltos +
        (calculate_metrics scenarioFive).tickets_abiertos ∧
    esResuelto ticketEnProgreso = false :=
  ⟨(calculate_metrics_partition scenarioFive).1,
   (calculate_metrics_partition scenarioFive).2.2.2 ticketEnProgreso rfl⟩


/-- C3: every ticket produced by the sample generator — for any ticket
count and any seed, i.e. any stream of draws — has `fecha_resolucion`,
`tiempo_resolucion_horas` and `satisfaccion_cliente` jointly present or
jointly absent, present exactly when estado is Resuelto or Cerrado. -/
theorem insert_sample_tickets_invariant (base : DateTime) (draws : List TicketDraws)
    (t : Ticket) (ht : t ∈ insert_sample_tickets [] base draws) : ticketInvariant t := by
  unfold insert_sample_tickets at ht
  rcases mem_foldl_insertOrIgnore (fun p => generate_ticket base p.1 p.2)
      draws.enum [] t ht with h | ⟨p, _, he⟩
  · cases h
  · rw [he]
    exact generate_ticket_invariant base p.1 p.2

/-- Witness for C3 on a single-draw run. -/
theorem insert_sample_tickets_invariant_witness :
    ticketInvariant (generate_ticket ⟨0, 0⟩ 0 drawsOne) :=
  insert_sample_tickets_invariant ⟨0, 0⟩ [drawsOne]
    (generate_ticket ⟨0, 0⟩ 0 drawsOne) (by decide)

/-- C7: the exported document has top-level keys timestamp, metrics,
tickets and summary, the summary has the total and a date range with
start and end, and parsing the metrics object back yields a snapshot
whose fields all equal the in-memory one. -/
theorem export_for_powerbi_roundtrip (m : Metrics) (df : List Ticket) (now_iso : String) :
    (export_for_powerbi m df now_iso).keys = ["timestamp", "metrics", "tickets", "summary"] ∧
    (export_for_powerbi m df now_iso).getField "metrics" = some (metricsToJson m) ∧
    decodeMetrics (metricsToJson m) = some m ∧
    ((export_for_powerbi m df now_iso).getField "summary").map Json.keys =
      some ["total_tickets", "date_range"] ∧
    (((export_for_powerbi m df now_iso).getField "summary").bind
        (fun s => s.getField "date_range")).map Json.keys = some ["start", "end"] :=
  ⟨rfl, rfl, decode_metricsToJson m, rfl, rfl⟩


theorem weeklyTrend_length_le (key : Date → ℤ × ℤ) (df : List Ticket) :
    (weeklyTrend key df).length ≤ 8 := by
  unfold weeklyTrend
  dsimp only
  exact List.length_take_le 8 _

theorem weeklyTrend_pairwise (key : Date → ℤ × ℤ) (df : List Ticket) :
    List.Pairwise weekGe (weeklyTrend key df) := by
  unfold weeklyTrend sortWeekDesc
  dsimp only
  exact List.Pairwise.sublist (List.take_sublist 8 _) (List.sorted_insertionSort weekGe _)

theorem weeklyTrend_counts (key : Date → ℤ × ℤ) (df : List Ticket) (row : WeekRow)
    (h : row ∈ weeklyTrend key df) :
    row.tickets_creados = (df.filter (fun t => key t.fecha_creacion == row.semana)).length ∧
    row.tickets_resueltos =
      (df.filter (fun t => key t.fecha_creacion == row.semana && esResuelto t)).length := by
  unfold weeklyTrend sortWeekDesc at h
  dsimp only at h
  have h1 := List.mem_of_mem_take h
  rw [List.mem_insertionSort] at h1
  obtain ⟨w, _, rfl⟩ := List.mem_map.mp h1
  exact ⟨rfl, rfl⟩

theorem weeklyTrend_recent (key : Date → ℤ × ℤ) (df : List Ticket) (w : ℤ × ℤ)
    (hw : w ∈ df.map (fun t => key t.fecha_creacion))
    (hnot : ∀ row ∈ weeklyTrend key df, row.semana ≠ w)
    (row : WeekRow) (hrow : row ∈ weeklyTrend key df) :
    weekKeyLe w row.semana = true := by
  unfold weeklyTrend sortWeekDesc at hnot hrow
  dsimp only at hnot hrow
  have hfull := List.sorted_insertionSort weekGe
    (((df.map (fun t => key t.fecha_creacion)).dedup).map
      (fun w =>
        { semana := w
          tickets_creados := (df.filter (fun t => key t.fecha_creacion == w)).length
          tickets_resueltos :=
            (df.filter (fun t => key t.fecha_creacion == w && esResuelto t)).length }))
  set full := List.insertionSort weekGe
    (((df.map (fun t => key t.fecha_creacion)).dedup).map
      (fun w =>
        { semana := w
          tickets_creados := (df.filter (fun t => key t.fecha_creacion == w)).length
          tickets_resueltos :=
            (df.filter (fun t => key t.fecha_creacion == w && esResuelto t)).length }))
    with hfulldef
  have hsplit : full.take 8 ++ full.drop 8 = full := List.take_append_drop 8 full
  have hpw : List.Pairwise weekGe (full.take 8 ++ full.drop 8) := by
    rw [hsplit]; exact hfull
  obtain ⟨-, -, hcross⟩ := List.pairwise_append.mp hpw
  have hmemw : ({ semana := w
                  tickets_creados :=
                    (df.filter (fun t => key t.fecha_creacion == w)).length
                  tickets_resueltos :=
                    (df.filter (fun t => key t.fecha_creacion == w && esResuelto t)).length }
      : WeekRow) ∈ full := by
    rw [hfulldef, List.mem_insertionSort]
    exact List.mem_map.mpr ⟨w, List.mem_dedup.mpr hw, rfl⟩
  rcases List.mem_append.mp (by rw [hsplit]; exact hmemw :
      ({ semana := w
         tickets_creados := (df.filter (fun t => key t.fecha_creacion == w)).length
         tickets_resueltos :=
           (df.filter (fun t => key t.fecha_creacion == w && esResuelto t)).length }
        : WeekRow) ∈ full.take 8 ++ full.drop 8) with htake | hdrop
  · exact absurd rfl (hnot _ htake)
  · exact hcross row hrow _ hdrop

/-- C8 as stated is false: the weekly report groups by
`strftime('%Y-%W')`, not by ISO week. The tickets created 2023-01-01 and
2022-12-26 share the ISO week 2022-W52, yet the code reports two
one-ticket groups, 2023-00 and 2022-52, instead of one group with two
created tickets. -/
theorem tendencia_semanal_not_iso_weekly :
    (tendencia_semanal crossYearTickets).map WeekRow.semana = [(2023, 0), (2022, 52)] ∧
    (tendencia_semanal_iso crossYearTickets).map WeekRow.semana = [(2022, 52)] ∧
    tendencia_semanal crossYearTickets ≠ tendencia_semanal_iso crossYearTickets := by
  decide

/-- C8 amended: the weekly report groups tickets by the `'%Y-%W'` key
(Monday-based week of the calendar year, week 00 before the first Monday)
of `fecha_creacion` — not by ISO week — and returns per-week counts of
created and of resolved tickets, at most 8 rows, ordered descending by
week key, keeping the most recent weeks: any week of the data left out is
no later than every reported week. -/
theorem tendencia_semanal_spec (df : List Ticket) :
    (tendencia_semanal df).length ≤ 8 ∧
    List.Pairwise weekGe (tendencia_semanal df) ∧
    (∀ row ∈ tendencia_semanal df,
      row.tickets_creados =
        (df.filter (fun t => sqliteWeekKey t.fecha_creacion == row.semana)).length ∧
      row.tickets_resueltos =
        (df.filter (fun t =>
          sqliteWeekKey t.fecha_creacion == row.semana && esResuelto t)).length) ∧
    (∀ w ∈ df.map (fun t => sqliteWeekKey t.fecha_creacion),
      (∀ row ∈ tendencia_semanal df, row.semana ≠ w) →
      ∀ row ∈ tendencia_semanal df, weekKeyLe w row.semana = true) :=
  ⟨weeklyTrend_length_le sqliteWeekKey df, weeklyTrend_pairwise sqliteWeekKey df,
   fun row h => weeklyTrend_counts sqliteWeekKey df row h,
   fun w hw hnot row hrow => weeklyTrend_recent sqliteWeekKey df w hw hnot row hrow⟩

/-- Witness for C8 (amended) on nine tickets in nine distinct weeks: the
report keeps 8 rows, the top row counts its week, and the omitted week
(2015, 2) is earlier than the reported week (2023, 2). -/
theorem tendencia_semanal_spec_witness :
    (tendencia_semanal nineWeekTickets).length ≤ 8 ∧
    (topNineWeekRow.tickets_creados =
      (nineWeekTickets.filter
        (fun t => sqliteWeekKey t.fecha_creacion == topNineWeekRow.semana)).length ∧
     topNineWeekRow.tickets_resueltos =
      (nineWeekTickets.filter
        (fun t => sqliteWeekKey t.fecha_creacion == topNineWeekRow.semana &&
          esResuelto t)).length) ∧
    weekKeyLe ((2015 : ℤ), (2 : ℤ)) topNineWeekRow.semana = true :=
  ⟨(tendencia_semanal_spec nineWeekTickets).1,
   (tendencia_semanal_spec nineWeekTickets).2.2.1 topNineWeekRow (by decide),
   (tendencia_semanal_spec nineWeekTickets).2.2.2 ((2015 : ℤ), (2 : ℤ)) (by decide)
     (by decide) topNineWeekRow (by decide)⟩

end
